import Mathlib

/-!
Shallow embedding of src/yagmail/yagmail.py (the Connect class and its helpers),
with theorems checking the specification claims about address resolution,
content classification, message preparation, the send retry loop, the unsent
queue, caching and session close.

External collaborators (the SMTP transport, HTTP fetch, the lxml HTML parser,
mimetypes, keyring, the serialization of MIME messages and the Python string
hash) are modeled as an explicit environment of functions; the repository
module yagmail.validate is not under src and its predicate is modeled
abstractly as an environment field.
-/

namespace Yagmail

/-- Exceptions raised by the code or by the Python runtime and external
libraries it calls. -/
inductive PyError where
  | yagConnectionClosed
  | yagAddressError
  | yagInvalidEmailAddress
  | typeError
  | indexError
  | smtpServerDisconnected
deriving DecidableEq, Repr

/-- The payload-carrying part of a MIME object: MIMEText with a subtype
(default subtype plain), or MIMEBase with main type, sub type, a name
parameter and a payload set by set_payload. -/
inductive MimeBody where
  | text (s : String) (subtype : String)
  | base (main sub name payload : String)
deriving DecidableEq, Repr

/-- A MIME object together with the mutations _prepare_message applies to
image objects: the added Content-ID header and base64 encoding of the
payload. -/
structure MimeObject where
  body : MimeBody
  contentId : Option String := none
  b64 : Bool := false
deriving DecidableEq, Repr

/-- The content_object dict built by _get_mime_object:
keys mime_object, encoding, main_type, sub_type, all initialized to None. -/
structure ContentObject where
  mime_object : Option MimeObject := none
  encoding : Option String := none
  main_type : Option String := none
  sub_type : Option String := none
deriving DecidableEq, Repr

/-- Result of parsing a string with lxml.html.fromstring, keeping the two
observations the code makes: the root tag, and whether find of a descendant
element pattern returns anything. -/
structure HtmlTree where
  tag : String
  hasDescendant : Bool
deriving DecidableEq, Repr

/-- Result of requests.get: the raw body and the optional content-type
header. -/
structure HttpResp where
  body : String
  contentType : Option String
deriving DecidableEq, Repr

/-- The composed MIME multipart message: the headers set by _add_subject and
_add_recipients, the preamble, the parts attached to the nested alternative
container and the parts attached to the outer container. -/
structure Message where
  user : String
  To : String
  Cc : Option String
  Bcc : Option String
  Subject : Option String
  preamble : Option String
  alternativeParts : List MimeObject
  parts : List MimeObject
deriving DecidableEq, Repr

/-- Environment of external collaborators used by the code: os.path.isfile,
file reading, requests.get (none models the caught IOError, ValueError and
MissingSchema failures), the optional lxml capability, mimetypes.guess_type
(type pair and encoding), message serialization, the Python string hash, and
the address validity predicate. -/
structure Env where
  isfile : String → Bool
  readFile : String → String
  httpGet : String → Option HttpResp
  lxml : Option (String → HtmlTree)
  guess_type : String → Option (String × String) × Option String
  asString : Message → String
  pyHash : String → Int
  /-- Modelled from the spec: validate_email_with_regex from the repository
  validate module (not under src) checks an address against RFC-5322-style
  syntax and raises YagInvalidEmailAddress on failure; modeled as a boolean
  predicate. -/
  validEmail : String → Bool

/-- A to, cc or bcc argument: a single string, a list or tuple of strings, or
an insertion-ordered mapping from address to display name. -/
inductive AddrInput where
  | str (s : String)
  | list (l : List String)
  | dict (d : List (String × String))
deriving DecidableEq, Repr

/-- The which argument of _make_addr_alias_target. -/
inductive Which where
  | To
  | Cc
  | Bcc
deriving DecidableEq, Repr

/-- The addresses dict built by _resolveAddresses. Python uses the
case-sensitive string keys recipients, To, to, cc and bcc; the capitalized
To and the lowercase to are distinct keys and both are modeled. -/
structure Addresses where
  recipients : List String
  To : Option String := none
  lowTo : Option String := none
  cc : Option String := none
  bcc : Option String := none
deriving DecidableEq, Repr

/-- A content item: a plain string, or a single-entry mapping from content
source to an explicit display name. -/
inductive ContentItem where
  | str (s : String)
  | dict (src name : String)
deriving DecidableEq, Repr

/-- The contents argument of send: a single string or a list of items. -/
inductive Contents where
  | str (s : String)
  | items (l : List ContentItem)
deriving DecidableEq, Repr

/-- The subject argument of send: a string or a list of strings. -/
inductive PySubject where
  | str (s : String)
  | list (l : List String)
deriving DecidableEq, Repr

/-- The per-session content cache, a Python dict keyed by the content item
(only hashable, therefore string, keys can occur). -/
abbrev Cache := List (String × ContentObject)

/-- The mutable attributes of a Connect instance that the modeled operations
read or write, plus the connection state of the owned smtplib.SMTP handle. -/
structure ConnectState where
  user : String
  username : String
  is_closed : Bool
  smtpConnected : Bool
  cache : Cache
  unsent : List (List String × String)
  num_mail_sent : Nat
deriving DecidableEq, Repr

/-- Outcome of one smtp.sendmail call: a result on success, or the
SMTPServerDisconnected exception that _attempt_send catches. -/
inductive SmtpOutcome where
  | ok (res : String)
  | disconnect
deriving DecidableEq, Repr

/-- Observable events of the send loop: one sendmail call with its arguments,
or one time.sleep with its duration. -/
inductive Ev where
  | transmit (recipients : List String) (msg : String)
  | sleep (n : Nat)
deriving DecidableEq, Repr

/-- The value returned by send: the empty dict for an empty recipient set,
the addresses and serialized message pair in preview mode, the sendmail
result on success, or False after exhausted retries. -/
inductive SendReturn where
  | empty
  | preview (addresses : Addresses) (msg : String)
  | delivered (res : String)
  | failed
deriving DecidableEq, Repr

/-- os.path.basename restricted to forward-slash paths: the part after the
last slash. -/
def basename (s : String) : String :=
  (s.splitOn "/").getLastD s

/-- The addresses contributed by one to, cc or bcc argument: the string
itself, the list elements, or the mapping keys. -/
def addrsOf : AddrInput → List String
  | .str s => [s]
  | .list l => l
  | .dict d => d.map Prod.fst

/-- Store a display string under the lowercase key named by which. -/
def setWhich (a : Addresses) (which : Which) (v : String) : Addresses :=
  match which with
  | .To => { a with lowTo := some v }
  | .Cc => { a with cc := some v }
  | .Bcc => { a with bcc := some v }

/-- Embedding of Connect._make_addr_alias_target. A string argument appends
to recipients and writes the capitalized To key regardless of which; a list
extends recipients and joins with a semicolon under the lowercase which key;
a mapping extends recipients with the keys and joins the values under the
lowercase which key. The YagAddressError raises for arguments of other
runtime types are unrepresentable in the typed embedding. -/
def _make_addr_alias_target (x : AddrInput) (a : Addresses) (which : Which) :
    Addresses :=
  match x with
  | .str s => { a with recipients := a.recipients ++ [s], To := some s }
  | .list l =>
      setWhich { a with recipients := a.recipients ++ l } which
        ("; ".intercalate l)
  | .dict d =>
      setWhich { a with recipients := a.recipients ++ d.map Prod.fst } which
        ("; ".intercalate (d.map Prod.snd))

/-- The first branch of _resolveAddresses, before cc and bcc are appended:
a given to becomes the target; else when both cc and bcc are given the pair
of user and username is passed as a list target; else the user alone is
appended to recipients. -/
def resolveTo (user username : String) (to_ cc bcc : Option AddrInput)
    (a : Addresses) : Addresses :=
  match to_ with
  | some t => _make_addr_alias_target t a .To
  | none =>
      match cc, bcc with
      | some _, some _ =>
          _make_addr_alias_target (.list [user, username]) a .To
      | _, _ => { a with recipients := a.recipients ++ [user] }

/-- The target-resolution part of _resolveAddresses: the to branch followed
by the optional cc and bcc appends, before validation. -/
def resolveTargets (user username : String) (to_ cc bcc : Option AddrInput) :
    Addresses :=
  let a := resolveTo user username to_ cc bcc { recipients := [] }
  let a := match cc with
    | some c => _make_addr_alias_target c a .Cc
    | none => a
  match bcc with
  | some b => _make_addr_alias_target b a .Bcc
  | none => a

/-- Python list.remove: delete the first element equal to the given value. -/
def pyRemove (l : List String) (x : String) : List String :=
  match l with
  | [] => []
  | y :: ys => if y = x then ys else y :: pyRemove ys x

/-- Embedding of the validation loop of _resolveAddresses, which mutates the
recipients list while iterating it. The Python list iterator keeps a bare
index i that advances after every fetch, so removing the element at the
current position shifts the next element into the already-visited position i
and it is skipped. fuel bounds the number of iterations; called with fuel
equal to the list length it is exact, because i grows by one per step while
the length never grows, so the index guard fails no later than fuel runs
out, and the fuel-exhausted result equals the guard-failed result. -/
def validateLoop (valid : String → Bool) (throw_invalid_exception : Bool) :
    Nat → List String → Nat → Except PyError (List String)
  | 0, l, _ => .ok l
  | fuel + 1, l, i =>
      if h : i < l.length then
        let x := l.get ⟨i, h⟩
        if valid x then
          validateLoop valid throw_invalid_exception fuel l (i + 1)
        else if throw_invalid_exception then
          .error .yagInvalidEmailAddress
        else
          validateLoop valid throw_invalid_exception fuel (pyRemove l x) (i + 1)
      else .ok l

/-- Embedding of Connect._resolveAddresses: resolve the targets, then when
validate_email is set run the remove-while-iterating validation loop,
raising YagInvalidEmailAddress when throw_invalid_exception is set. -/
def _resolveAddresses (valid : String → Bool) (user username : String)
    (to_ cc bcc : Option AddrInput)
    (validate_email throw_invalid_exception : Bool) :
    Except PyError Addresses :=
  let a := resolveTargets user username to_ cc bcc
  if validate_email then
    match validateLoop valid throw_invalid_exception a.recipients.length
        a.recipients 0 with
    | .ok r => .ok { a with recipients := r }
    | .error e => .error e
  else .ok a

/-- The headers _add_recipients sets on the message. -/
structure MsgHeaders where
  user : String
  To : String
  Cc : Option String
  Bcc : Option String
deriving DecidableEq, Repr

/-- Embedding of Connect._add_recipients: the user header is the username;
the To header comes from the capitalized To key, defaulting to the username;
the Cc and Bcc headers come from the lowercase cc and bcc keys when
present. -/
def _add_recipients (username : String) (a : Addresses) : MsgHeaders :=
  { user := username
    To := a.To.getD username
    Cc := a.cc
    Bcc := a.bcc }

/-- The content source string of an item: in the mapping form the loop over
the single-entry dict rebinds content_string to the key. -/
def srcOf : ContentItem → String
  | .str s => s
  | .dict src _ => src

/-- The content name of an item: the explicit mapping value, or the basename
of the source string. -/
def nameOf : ContentItem → String
  | .str s => basename s
  | .dict _ n => n

/-- The markup test applied to the parse tree in _get_mime_object: a
descendant element exists, or the root tag is not a bare paragraph tag. -/
def containsMarkup (t : HtmlTree) : Bool :=
  t.hasDescendant || t.tag != "p"

/-- The literal-text branch of _get_mime_object: main_type is set to text;
with the lxml capability present the string is parsed and classified html
when it contains markup, otherwise a plain MIMEText is built (the NameError
of an absent lxml is the capability-none case); a still-unset sub_type is
finally set to plain. -/
def literalBranch (env : Env) (content_string : String) (co : ContentObject) :
    ContentObject :=
  let co := { co with main_type := some "text" }
  let co : ContentObject :=
    match env.lxml with
    | some parse =>
        if containsMarkup (parse content_string) then
          { co with mime_object := some { body := .text content_string "html" },
                    sub_type := some "html" }
        else
          { co with mime_object := some { body := .text content_string "plain" } }
    | none =>
        { co with mime_object := some { body := .text content_string "plain" } }
  if co.sub_type = none then { co with sub_type := some "plain" } else co

/-- The tail of _get_mime_object after a readable file or a successful fetch:
when main_type is still unset, mimetypes.guess_type fills the type pair and
the encoding; an unresolved type or a present encoding falls back to
application octet-stream; finally a MIMEBase object carrying the payload is
built. -/
def finishFile (env : Env) (content_string content_name content : String)
    (co : ContentObject) : ContentObject :=
  let co :=
    if co.main_type = none then
      let guessed := env.guess_type content_string
      let co := { co with encoding := guessed.2 }
      match guessed.1 with
      | some (m, s) => { co with main_type := some m, sub_type := some s }
      | none => co
    else co
  let co :=
    if co.main_type = none || co.encoding != none then
      { co with main_type := some "application", sub_type := some "octet-stream" }
    else co
  let b := MimeBody.base (co.main_type.getD "") (co.sub_type.getD "")
    content_name content
  { co with mime_object := some { body := b } }

/-- Embedding of Connect._get_mime_object. An existing file is read (the
text or binary re-read both yield the payload); otherwise the source is
fetched over HTTP, taking the type pair from a content-type header that
splits into exactly two parts (a header with another shape raises the
ValueError that the except clause catches); a failed fetch or malformed
header classifies the source as literal text. -/
def _get_mime_object (env : Env) (item : ContentItem) : ContentObject :=
  let content_string := srcOf item
  let content_name := nameOf item
  let co : ContentObject := {}
  if env.isfile content_string then
    finishFile env content_string content_name (env.readFile content_string) co
  else
    match env.httpGet content_string with
    | some r =>
        match r.contentType with
        | some ct =>
            match ct.splitOn "/" with
            | [m, s] =>
                finishFile env content_string content_name r.body
                  { co with main_type := some m, sub_type := some s }
            | _ => literalBranch env content_string co
        | none => finishFile env content_string content_name r.body co
    | none => literalBranch env content_string co

/-- The image test of _prepare_contents and _prepare_message. -/
def isImage (co : ContentObject) : Bool :=
  co.main_type == some "image"

/-- Python dict lookup in the session cache. -/
def cacheFind (cache : Cache) (s : String) : Option ContentObject :=
  match cache with
  | [] => none
  | (k, v) :: rest => if k = s then some v else cacheFind rest s

/-- Python dict keys must be hashable: a string item is its own key, while
the membership test on a dict item raises TypeError. -/
def hashableKey : ContentItem → Except PyError String
  | .str s => .ok s
  | .dict _ _ => .error .typeError

/-- The promotion at the top of _prepare_contents: a single string contents
argument becomes a one-element list. -/
def contentsList : Contents → List ContentItem
  | .str s => [.str s]
  | .items l => l

/-- The iteration _prepare_message performs with zip over the original,
unpromoted contents argument: iterating a single string yields its
characters as one-character strings. -/
def contentsZipIter : Contents → List ContentItem
  | .str s => s.data.map (fun c => .str (String.mk [c]))
  | .items l => l

/-- The loop body of _prepare_contents over the promoted item list: with
use_cache the key is looked up (raising TypeError on a dict item), a miss
computes and stores the object, and the object is then read back from the
cache; without use_cache the object is computed directly. The image flag is
the disjunction of the per-item image tests. -/
def prepareContentsGo (env : Env) (use_cache : Bool) :
    List ContentItem → Cache → Except PyError (Bool × List ContentObject × Cache)
  | [], cache => .ok (false, [], cache)
  | item :: rest, cache =>
      let step : Except PyError (ContentObject × Cache) :=
        if use_cache then
          match hashableKey item with
          | .error e => .error e
          | .ok k =>
              let obj :=
                match cacheFind cache k with
                | some o => o
                | none => _get_mime_object env item
              let cache' :=
                match cacheFind cache k with
                | some _ => cache
                | none => cache ++ [(k, obj)]
              .ok (obj, cache')
        else .ok (_get_mime_object env item, cache)
      match step with
      | .error e => .error e
      | .ok (obj, cache') =>
          match prepareContentsGo env use_cache rest cache' with
          | .error e => .error e
          | .ok (flag, objs, cache'') =>
              .ok (isImage obj || flag, obj :: objs, cache'')

/-- Embedding of Connect._prepare_contents. -/
def _prepare_contents (env : Env) (contents : Option Contents)
    (use_cache : Bool) (cache : Cache) :
    Except PyError (Bool × List ContentObject × Cache) :=
  match contents with
  | none => .ok (false, [], cache)
  | some cs => prepareContentsGo env use_cache (contentsList cs) cache

/-- Embedding of Connect._add_subject: a falsy subject sets no header, a
list is joined with spaces. -/
def _add_subject : Option PySubject → Option String
  | none => none
  | some (.str s) => if s = "" then none else some s
  | some (.list l) => if l = [] then none else some (" ".intercalate l)

/-- The hashed reference for an image item: the mapping value itself, or the
decimal absolute Python hash of the basename of the source string. -/
def imageRef (env : Env) (item : ContentItem) : String :=
  match item with
  | .dict _ name => name
  | .str s => toString (env.pyHash (basename s)).natAbs

/-- The content attachment loop of _prepare_message, zipping the content
objects with the original contents argument: an image object gains a
Content-ID header and base64 encoding and an img fragment is attached to the
alternative container; every object is attached to the outer container. The
mime_object field is always set by _get_mime_object, so mapping over the
option loses nothing. -/
def attachLoop (env : Env) :
    List ContentObject → List ContentItem → List MimeObject × List MimeObject
  | obj :: os, item :: its =>
      let (alts, mains) := attachLoop env os its
      if isImage obj then
        let ref := imageRef env item
        let imgText : MimeObject :=
          { body := .text ("<img src=\"cid:" ++ ref ++ "\" title=\"" ++ ref ++ "\"/>") "html" }
        let attached :=
          match obj.mime_object with
          | some m =>
              [{ m with contentId := some ("<" ++ ref ++ ">"), b64 := true }]
          | none => []
        (imgText :: alts, attached ++ mains)
      else
        let attached :=
          match obj.mime_object with
          | some m => [m]
          | none => []
        (alts, attached ++ mains)
  | _, _ => ([], [])

/-- The message assembly of _prepare_message: subject and recipient headers,
the preamble when an embedded image is present, and the attachment loop over
the zip of content objects with the original contents argument. -/
def assembleMsg (env : Env) (username : String) (addresses : Addresses)
    (subject : Option PySubject) (contents : Option Contents)
    (hasImg : Bool) (objs : List ContentObject) : Message :=
  let hdr := _add_recipients username addresses
  let (alts, mains) :=
    match contents with
    | none => ([], [])
    | some cs => attachLoop env objs (contentsZipIter cs)
  { user := hdr.user
    To := hdr.To
    Cc := hdr.Cc
    Bcc := hdr.Bcc
    Subject := _add_subject subject
    preamble :=
      if hasImg then some "You need a MIME enabled mail reader to see this message."
      else none
    alternativeParts := alts
    parts := mains }

/-- Embedding of Connect._prepare_message: raises YagConnectionClosed on a
closed session, prepares the contents through the cache and assembles the
message. The attachments argument is unused by the code (the conditional
body is pass and the helper call is commented out). -/
def _prepare_message (env : Env) (st : ConnectState) (addresses : Addresses)
    (subject : Option PySubject) (contents : Option Contents)
    (use_cache : Bool) : Except PyError (Message × Cache) :=
  if st.is_closed then .error .yagConnectionClosed
  else
    match _prepare_contents env contents use_cache st.cache with
    | .error e => .error e
    | .ok (hasImg, objs, cache') =>
        .ok (assembleMsg env st.username addresses subject contents hasImg objs,
             cache')

/-- Embedding of the while loop of Connect._attempt_send. The loop guard is
attempts less than three; remaining is the countdown three minus attempts,
carried structurally so that the loop runs while it is positive. On success
sendmail returns and num_mail_sent is incremented; on SMTPServerDisconnected
attempts is incremented and the loop sleeps attempts times three before the
next guard check; when the guard fails the pair is appended to unsent and
False is returned. -/
def attemptSendGo (outcome : Nat → SmtpOutcome) (recipients : List String)
    (msg : String) (st : ConnectState) :
    Nat → Nat → Option String × ConnectState × List Ev
  | _, 0 =>
      (none, { st with unsent := st.unsent ++ [(recipients, msg)] }, [])
  | attempts, remaining + 1 =>
      match outcome attempts with
      | .ok res =>
          (some res, { st with num_mail_sent := st.num_mail_sent + 1 },
           [.transmit recipients msg])
      | .disconnect =>
          let r := attemptSendGo outcome recipients msg st (attempts + 1) remaining
          (r.1, r.2.1,
           .transmit recipients msg :: .sleep ((attempts + 1) * 3) :: r.2.2)

/-- Embedding of Connect._attempt_send, entered with attempts zero. -/
def _attempt_send (outcome : Nat → SmtpOutcome) (recipients : List String)
    (msg : String) (st : ConnectState) :
    Option String × ConnectState × List Ev :=
  attemptSendGo outcome recipients msg st 0 3

/-- The durations of the sleep events of a trace. -/
def sleepsOf (tr : List Ev) : List Nat :=
  tr.filterMap (fun e => match e with | .sleep n => some n | _ => none)

/-- The sendmail calls of a trace. -/
def transmitsOf (tr : List Ev) : List (List String × String) :=
  tr.filterMap (fun e =>
    match e with | .transmit r m => some (r, m) | _ => none)

/-- Embedding of Connect.send. The outcome oracle feeds the sendmail calls
of the single _attempt_send this call can make. -/
def send (env : Env) (st : ConnectState) (to_ cc bcc : Option AddrInput)
    (subject : Option PySubject) (contents : Option Contents)
    (_attachments : Option Unit)
    (preview_only use_cache validate_email throw_invalid_exception : Bool)
    (outcome : Nat → SmtpOutcome) :
    Except PyError (SendReturn × ConnectState × List Ev) :=
  match _resolveAddresses env.validEmail st.user st.username to_ cc bcc
      validate_email throw_invalid_exception with
  | .error e => .error e
  | .ok addresses =>
      if addresses.recipients.isEmpty then .ok (.empty, st, [])
      else
        match _prepare_message env st addresses subject contents use_cache with
        | .error e => .error e
        | .ok (msg, cache') =>
            let st' := { st with cache := cache' }
            if preview_only then
              .ok (.preview addresses (env.asString msg), st', [])
            else
              let r := _attempt_send outcome addresses.recipients
                (env.asString msg) st'
              .ok (match r.1 with
                   | some res => .delivered res
                   | none => .failed,
                   r.2.1, r.2.2)

/-- Python list.pop at an index: the element and the remaining list, or none
for the IndexError raised on an out-of-range index. -/
def listPop (l : List α) (i : Nat) : Option (α × List α) :=
  match l.get? i with
  | some x => some (x, l.eraseIdx i)
  | none => none

/-- Embedding of the loop of Connect.send_unsent: the iteration count is the
queue length captured once by range, the index i advances every step, and
each step pops the element at index i of the live queue and retries it with
the full _attempt_send logic (which re-appends on failure). A pop beyond the
end raises IndexError, modeled as an error flag beside the state and trace
accumulated so far. The oracle gives the outcome per iteration and attempt. -/
def sendUnsentGo (outcome : Nat → Nat → SmtpOutcome) :
    Nat → ConnectState → Nat → Option PyError × ConnectState × List Ev
  | 0, st, _ => (none, st, [])
  | remaining + 1, st, i =>
      match listPop st.unsent i with
      | none => (some .indexError, st, [])
      | some ((recipients, msg_string), rest) =>
          let r := _attempt_send (outcome i) recipients msg_string
            { st with unsent := rest }
          let r' := sendUnsentGo outcome remaining r.2.1 (i + 1)
          (r'.1, r'.2.1, r.2.2 ++ r'.2.2)

/-- Embedding of Connect.send_unsent. -/
def send_unsent (outcome : Nat → Nat → SmtpOutcome) (st : ConnectState) :
    Option PyError × ConnectState × List Ev :=
  sendUnsentGo outcome st.unsent.length st 0

/-- Model of the external smtplib.SMTP.quit call: quitting a live connection
closes it; quitting an already-closed connection raises
SMTPServerDisconnected, as smtplib does when the socket is gone. -/
def smtpQuit (st : ConnectState) : Except PyError ConnectState :=
  if st.smtpConnected then .ok { st with smtpConnected := false }
  else .error .smtpServerDisconnected

/-- Embedding of Connect.close: is_closed is set and the transport quit is
invoked unconditionally. -/
def close (st : ConnectState) : Except PyError ConnectState :=
  smtpQuit { st with is_closed := true }

/-- The string display of an argument, written under the capitalized To key
by the string branch of _make_addr_alias_target. -/
def strOf : AddrInput → Option String
  | .str s => some s
  | _ => none

/-- The display string the sequence and mapping branches of
_make_addr_alias_target record under the lowercase key of their argument;
the string branch records nothing there. -/
def seqDisplay : AddrInput → Option String
  | .str _ => none
  | .list l => some ("; ".intercalate l)
  | .dict d => some ("; ".intercalate (d.map Prod.snd))

/-- The last string-shaped argument among to, cc and bcc in processing
order: it is the final writer of the capitalized To key. -/
def lastStrDisplay (tx cx bx : AddrInput) : Option String :=
  match strOf bx with
  | some s => some s
  | none =>
      match strOf cx with
      | some s => some s
      | none => strOf tx

/-- A live session fixture. -/
def st0 : ConnectState :=
  { user := "u@x", username := "u@x", is_closed := false, smtpConnected := true,
    cache := [], unsent := [], num_mail_sent := 0 }

/-- An already-closed session fixture. -/
def stClosed : ConnectState :=
  { st0 with is_closed := true, smtpConnected := false }

/-- A session fixture with two entries in the unsent queue. -/
def stQ2 : ConnectState :=
  { st0 with unsent := [(["r1@x"], "m1"), (["r2@x"], "m2")] }

/-- An environment fixture in which nothing is a file, nothing is fetchable
and the lxml capability is absent. -/
def env0 : Env :=
  { isfile := fun _ => false, readFile := fun _ => "", httpGet := fun _ => none,
    lxml := none, guess_type := fun _ => (none, none),
    asString := fun _ => "serialized", pyHash := fun _ => 0,
    validEmail := fun _ => true }

/-- A parse capability fixture returning a non-paragraph tree. -/
def parseB : String → HtmlTree :=
  fun _ => { tag := "b", hasDescendant := true }

/-- An environment fixture with the lxml capability present. -/
def envHtml : Env :=
  { env0 with lxml := some parseB }

/-- An environment fixture whose remote resource has the old body. -/
def envOld : Env :=
  { env0 with httpGet := fun _ => some { body := "old", contentType := some "text/plain" } }

/-- An environment fixture whose remote resource has since changed. -/
def envNew : Env :=
  { env0 with httpGet := fun _ => some { body := "new", contentType := some "text/plain" } }

/-- An outcome oracle raising SMTPServerDisconnected on every sendmail
call. -/
def allDisc : Nat → SmtpOutcome :=
  fun _ => .disconnect

/-- An outcome oracle on which every sendmail call succeeds. -/
def okOut : Nat → SmtpOutcome :=
  fun _ => .ok "sent"

/-- A per-iteration oracle for send_unsent on which every sendmail call
succeeds. -/
def okOracle : Nat → Nat → SmtpOutcome :=
  fun _ _ => .ok "sent"

/-- A validity predicate rejecting every address. -/
def alwaysInvalid : String → Bool :=
  fun _ => false

/-- The addresses value resolved from an empty to list without
validation. -/
def a7empty : Addresses :=
  { recipients := [], To := none, lowTo := some "", cc := none, bcc := none }

/-- The addresses value resolved from a single string to argument. -/
def a10 : Addresses :=
  { recipients := ["t@x"], To := some "t@x", lowTo := none, cc := none, bcc := none }

/-- The message composed from a10 with no subject and no contents. -/
def msg10 : Message :=
  { user := "u@x", To := "t@x", Cc := none, Bcc := none, Subject := none,
    preamble := none, alternativeParts := [], parts := [] }

/-- Claim C1, counterexample. The claim states that under three consecutive
transient disconnects send sleeps 3 units between attempts 1 and 2 and 6
units between attempts 2 and 3 and performs no other sleeps; but the loop
body sleeps after every caught disconnect, including the third and last one,
so the sleep durations are 3, 6 and 9, not 3 and 6. -/
theorem C1_counterexample :
    sleepsOf (_attempt_send allDisc ["a@x"] "m" st0).2.2 ≠ [3, 6] := by
  decide

/-- Claim C1, amended: under three consecutive transient disconnects,
_attempt_send performs exactly three sendmail calls, sleeps 3 units after
the first failure, 6 after the second and also 9 after the third and last
failure, then appends the recipients and serialized message pair to the
unsent queue and returns False without raising. -/
theorem C1_amended (outcome : Nat → SmtpOutcome) (recipients : List String)
    (msg : String) (st : ConnectState)
    (h : ∀ k, k < 3 → outcome k = SmtpOutcome.disconnect) :
    _attempt_send outcome recipients msg st =
      (none, { st with unsent := st.unsent ++ [(recipients, msg)] },
       [.transmit recipients msg, .sleep 3, .transmit recipients msg, .sleep 6,
        .transmit recipients msg, .sleep 9]) := by
  have h0 := h 0 (by omega)
  have h1 := h 1 (by omega)
  have h2 := h 2 (by omega)
  simp [_attempt_send, attemptSendGo, h0, h1, h2]

/-- Claim C1, witness for the amended theorem at the all-disconnect
oracle. -/
theorem C1_witness :
    (∀ k, k < 3 → allDisc k = SmtpOutcome.disconnect) ∧
    _attempt_send allDisc ["a@x"] "m" st0 =
      (none, { st0 with unsent := st0.unsent ++ [(["a@x"], "m")] },
       [.transmit ["a@x"] "m", .sleep 3, .transmit ["a@x"] "m", .sleep 6,
        .transmit ["a@x"] "m", .sleep 9]) :=
  ⟨fun _ _ => rfl, C1_amended allDisc ["a@x"] "m" st0 (fun _ _ => rfl)⟩

/-- Claim C2, evaluation at the failing input. The loop captures the queue
length once and pops index i of the live, shrinking queue: on a queue of two
entries whose retries succeed, iteration 0 pops and sends entry 1, and
iteration 1 pops index 1 of the now one-element queue, raising IndexError;
entry 2 is never attempted and stays queued, contradicting the claim that
each entry is attempted exactly once without raising. -/
theorem C2_code_bug :
    send_unsent okOracle stQ2 =
      (some PyError.indexError,
       { stQ2 with unsent := [(["r2@x"], "m2")], num_mail_sent := 1 },
       [.transmit ["r1@x"] "m1"]) := by
  decide

/-- Claim C3, counterexample. The claim states that close on an already
closed session is a no-op that does not raise; but close invokes the
transport quit unconditionally, and quit on the already-released transport
raises SMTPServerDisconnected. -/
theorem C3_counterexample :
    close stClosed = Except.error PyError.smtpServerDisconnected := by
  rfl

/-- Claim C3, amended: close on an open session marks it closed and releases
the transport; a second close repeats the transport quit on the released
transport and raises SMTPServerDisconnected instead of being a no-op. -/
theorem C3_amended (st : ConnectState) (h : st.smtpConnected = true) :
    close st = .ok { st with is_closed := true, smtpConnected := false } ∧
    close { st with is_closed := true, smtpConnected := false } =
      .error PyError.smtpServerDisconnected := by
  simp [close, smtpQuit, h]

/-- Claim C3, witness for the amended theorem at a live session. -/
theorem C3_witness :
    st0.smtpConnected = true ∧
    (close st0 = .ok { st0 with is_closed := true, smtpConnected := false } ∧
     close { st0 with is_closed := true, smtpConnected := false } =
       .error PyError.smtpServerDisconnected) :=
  ⟨rfl, C3_amended st0 rfl⟩

/-- Claim C4, counterexample. The claim states that with to absent and both
cc and bcc given, the recipients before cc and bcc are appended are a single
self address; but the code passes the two-element list of user and username,
so a plain string user appears twice. -/
theorem C4_counterexample :
    (resolveTo "a@b.com" "a@b.com" none (some (.str "c@d.com"))
        (some (.str "e@f.com")) { recipients := [] }).recipients ≠
      ["a@b.com"] := by
  decide

/-- Claim C4, amended: with to absent and both cc and bcc given, the
recipients before cc and bcc are appended are the pair of the user address
and the username alias (the same address twice when the user identity is a
plain string), to which the cc and bcc addresses are then appended. -/
theorem C4_amended (user username : String) (c b : AddrInput) :
    (resolveTo user username none (some c) (some b)
        { recipients := [] }).recipients = [user, username] ∧
    (resolveTargets user username none (some c) (some b)).recipients =
      [user, username] ++ addrsOf c ++ addrsOf b := by
  constructor
  · simp [resolveTo, _make_addr_alias_target, setWhich]
  · cases c <;> cases b <;>
      simp [resolveTargets, resolveTo, _make_addr_alias_target, setWhich,
        addrsOf, List.append_assoc]

/-- Claim C5, counterexample. The claim states that the display string of a
cc argument is recorded under the Cc header and placed on the message; but
the string branch of _make_addr_alias_target writes the capitalized To key
regardless of which argument it handles, so a single-string cc leaves the cc
key unset and the composed message carries no Cc header. -/
theorem C5_counterexample :
    (_add_recipients "u@x"
        (resolveTargets "u@x" "u@x" (some (.str "t@x")) (some (.str "c@x"))
          none)).Cc ≠ some "c@x" := by
  decide

/-- Claim C5, amended: every address of each argument is added to the
recipient set in input order; but the display recording differs from the
claim: a single-string argument writes the capitalized To key regardless of
whether it is to, cc or bcc (the last string-shaped argument wins), while
sequence and mapping arguments write the semicolon-joined display under the
lowercase key of their argument; the message takes its To header from the
capitalized To key with the username as fallback (so a sequence or mapping
to never reaches the To header), and its Cc and Bcc headers from the
lowercase cc and bcc keys. -/
theorem C5_amended (user username : String) (tx cx bx : AddrInput) :
    (resolveTargets user username (some tx) (some cx) (some bx)).recipients =
      addrsOf tx ++ addrsOf cx ++ addrsOf bx ∧
    (_add_recipients username
        (resolveTargets user username (some tx) (some cx) (some bx))).To =
      (lastStrDisplay tx cx bx).getD username ∧
    (_add_recipients username
        (resolveTargets user username (some tx) (some cx) (some bx))).Cc =
      seqDisplay cx ∧
    (_add_recipients username
        (resolveTargets user username (some tx) (some cx) (some bx))).Bcc =
      seqDisplay bx ∧
    (resolveTargets user username (some tx) (some cx) (some bx)).lowTo =
      seqDisplay tx := by
  cases tx <;> cases cx <;> cases bx <;>
    simp [resolveTargets, resolveTo, _make_addr_alias_target, setWhich,
      _add_recipients, addrsOf, seqDisplay, strOf, lastStrDisplay,
      List.append_assoc]

/-- Claim C6, evaluation at the failing input. Validation removes invalid
addresses from the recipients list while iterating it by index, so after
removing an invalid address the next address shifts into the visited
position and is skipped: on two consecutive invalid addresses with strict
mode off, the first is dropped but the second, equally invalid, remains in
the recipient set, contradicting the claim that no invalid address
remains. -/
theorem C6_code_bug :
    _resolveAddresses alwaysInvalid "u@x" "u@x"
        (some (.list ["bad1@x", "bad2@x"])) none none true false =
      .ok { recipients := ["bad2@x"], To := none,
            lowTo := some "bad1@x; bad2@x", cc := none, bcc := none } ∧
    alwaysInvalid "bad2@x" = false :=
  ⟨rfl, rfl⟩

/-- Claim C7: when the resolved recipient set is empty, send returns the
empty dict before any message composition, the session state is untouched,
no transmission or sleep happens and no error is raised. -/
theorem C7_confirmed (env : Env) (st : ConnectState)
    (to_ cc bcc : Option AddrInput) (subject : Option PySubject)
    (contents : Option Contents) (att : Option Unit)
    (preview_only use_cache validate_email throw_invalid_exception : Bool)
    (outcome : Nat → SmtpOutcome) (a : Addresses)
    (h1 : _resolveAddresses env.validEmail st.user st.username to_ cc bcc
        validate_email throw_invalid_exception = .ok a)
    (h2 : a.recipients = []) :
    send env st to_ cc bcc subject contents att preview_only use_cache
        validate_email throw_invalid_exception outcome =
      .ok (.empty, st, []) := by
  simp [send, h1, h2]

/-- Claim C7, witness: an empty to list resolves to an empty recipient set
and send returns the empty result with the state unchanged. -/
theorem C7_witness :
    _resolveAddresses env0.validEmail st0.user st0.username
        (some (.list [])) none none false false = .ok a7empty ∧
    a7empty.recipients = [] ∧
    send env0 st0 (some (.list [])) none none none none none false false
        false false okOut = .ok (.empty, st0, []) :=
  ⟨rfl, rfl,
   C7_confirmed env0 st0 (some (.list [])) none none none none none false
     false false false okOut a7empty rfl rfl⟩

/-- Claim C8: a literal-text item (not an existing file and not fetchable)
is classified text with sub-type html exactly when the lxml capability is
present and the parsed text contains markup, meaning a descendant element or
a root tag other than a bare paragraph tag; with the capability absent every
literal item is classified text with sub-type plain. -/
theorem C8_confirmed (env : Env) (item : ContentItem)
    (h1 : env.isfile (srcOf item) = false)
    (h2 : env.httpGet (srcOf item) = none) :
    (∀ parse, env.lxml = some parse →
      (_get_mime_object env item).sub_type =
        some (if containsMarkup (parse (srcOf item)) then "html" else "plain")) ∧
    (env.lxml = none → (_get_mime_object env item).sub_type = some "plain") ∧
    (_get_mime_object env item).main_type = some "text" := by
  have hlit : _get_mime_object env item = literalBranch env (srcOf item) {} := by
    simp [_get_mime_object, h1, h2]
  rw [hlit]
  rcases hl : env.lxml with _ | parse
  · refine ⟨fun p hp => by simp [hl] at hp, fun _ => ?_, ?_⟩ <;>
      simp [literalBranch, hl]
  · refine ⟨fun p hp => ?_, fun hn => by simp [hl] at hn, ?_⟩
    · obtain rfl : parse = p := by simpa [hl] using hp
      by_cases hm : containsMarkup (parse (srcOf item)) <;>
        simp [literalBranch, hl, hm]
    · by_cases hm : containsMarkup (parse (srcOf item)) <;>
        simp [literalBranch, hl, hm]

/-- Claim C8, witness at a literal item with the capability present and
markup found. -/
theorem C8_witness :
    envHtml.isfile (srcOf (.str "<b>hi</b>")) = false ∧
    envHtml.httpGet (srcOf (.str "<b>hi</b>")) = none ∧
    ((∀ parse, envHtml.lxml = some parse →
        (_get_mime_object envHtml (.str "<b>hi</b>")).sub_type =
          some (if containsMarkup (parse (srcOf (.str "<b>hi</b>")))
            then "html" else "plain")) ∧
     (envHtml.lxml = none →
        (_get_mime_object envHtml (.str "<b>hi</b>")).sub_type = some "plain") ∧
     (_get_mime_object envHtml (.str "<b>hi</b>")).main_type = some "text") :=
  ⟨rfl, rfl, C8_confirmed envHtml (.str "<b>hi</b>") rfl rfl⟩

/-- A key appended to a cache that did not contain it is found with the
appended object. -/
theorem cacheFind_append_of_none (cache : Cache) (s : String)
    (o : ContentObject) (h : cacheFind cache s = none) :
    cacheFind (cache ++ [(s, o)]) s = some o := by
  induction cache with
  | nil => simp [cacheFind]
  | cons kv rest ih =>
      obtain ⟨k, v⟩ := kv
      by_cases hk : k = s
      · simp [cacheFind, hk] at h
      · simp only [cacheFind, List.cons_append, hk, if_false] at h ⊢
        exact ih h

/-- Claim C9, counterexample. The claim quantifies over every content item;
but a mapping-form item cannot be a cache key, because Python dict
membership hashes the key and a dict is unhashable, so the first call with
use_cache raises TypeError instead of returning a cached object. -/
theorem C9_counterexample :
    _prepare_contents env0 (some (.items [.dict "http://u" "n"])) true [] =
      .error PyError.typeError := by
  rfl

/-- Claim C9, amended: for a string content item not yet cached, the first
call with use_cache classifies it through its environment and stores the
object under the literal item string, and a second call, even against an
environment whose remote resource has changed, returns exactly the object
cached by the first call, payload included, leaving the cache unchanged;
entries are never invalidated. -/
theorem C9_amended (env1 env2 : Env) (cache : Cache) (s : String)
    (h : cacheFind cache s = none) :
    _prepare_contents env1 (some (.items [.str s])) true cache =
      .ok (isImage (_get_mime_object env1 (.str s)),
           [_get_mime_object env1 (.str s)],
           cache ++ [(s, _get_mime_object env1 (.str s))]) ∧
    _prepare_contents env2 (some (.items [.str s])) true
        (cache ++ [(s, _get_mime_object env1 (.str s))]) =
      .ok (isImage (_get_mime_object env1 (.str s)),
           [_get_mime_object env1 (.str s)],
           cache ++ [(s, _get_mime_object env1 (.str s))]) := by
  have hf := cacheFind_append_of_none cache s (_get_mime_object env1 (.str s)) h
  constructor
  · simp [_prepare_contents, contentsList, prepareContentsGo, hashableKey, h]
  · simp [_prepare_contents, contentsList, prepareContentsGo, hashableKey, hf]

/-- Claim C9, witness: a remote item cached from the old environment is
returned unchanged by a second call against the changed environment. -/
theorem C9_witness :
    cacheFind [] "http://u" = none ∧
    (_prepare_contents envOld (some (.items [.str "http://u"])) true [] =
       .ok (isImage (_get_mime_object envOld (.str "http://u")),
            [_get_mime_object envOld (.str "http://u")],
            [] ++ [("http://u", _get_mime_object envOld (.str "http://u"))]) ∧
     _prepare_contents envNew (some (.items [.str "http://u"])) true
         ([] ++ [("http://u", _get_mime_object envOld (.str "http://u"))]) =
       .ok (isImage (_get_mime_object envOld (.str "http://u")),
            [_get_mime_object envOld (.str "http://u")],
            [] ++ [("http://u", _get_mime_object envOld (.str "http://u"))])) :=
  ⟨rfl, C9_amended envOld envNew [] "http://u" rfl⟩

/-- Claim C10: with preview_only set, a successfully resolved non-empty
recipient set and a successfully composed message, send returns the pair of
the resolved addresses and the serialized message, performs no sendmail call
and no sleep, and leaves the unsent queue and the sent-message counter
unchanged; only the content cache may have been updated by composition. -/
theorem C10_confirmed (env : Env) (st : ConnectState)
    (to_ cc bcc : Option AddrInput) (subject : Option PySubject)
    (contents : Option Contents) (att : Option Unit)
    (use_cache validate_email throw_invalid_exception : Bool)
    (outcome : Nat → SmtpOutcome) (a : Addresses) (msg : Message)
    (cache' : Cache)
    (h1 : _resolveAddresses env.validEmail st.user st.username to_ cc bcc
        validate_email throw_invalid_exception = .ok a)
    (h2 : a.recipients.isEmpty = false)
    (h3 : _prepare_message env st a subject contents use_cache =
        .ok (msg, cache')) :
    send env st to_ cc bcc subject contents att true use_cache validate_email
        throw_invalid_exception outcome =
      .ok (.preview a (env.asString msg), { st with cache := cache' }, []) ∧
    ({ st with cache := cache' } : ConnectState).unsent = st.unsent ∧
    ({ st with cache := cache' } : ConnectState).num_mail_sent =
      st.num_mail_sent := by
  refine ⟨?_, rfl, rfl⟩
  simp [send, h1, h2, h3]

/-- Claim C10, witness at a single string recipient with no contents. -/
theorem C10_witness :
    _resolveAddresses env0.validEmail st0.user st0.username
        (some (.str "t@x")) none none false false = .ok a10 ∧
    a10.recipients.isEmpty = false ∧
    _prepare_message env0 st0 a10 none none false = .ok (msg10, []) ∧
    (send env0 st0 (some (.str "t@x")) none none none none none true false
        false false okOut =
      .ok (.preview a10 (env0.asString msg10), { st0 with cache := [] }, []) ∧
    ({ st0 with cache := [] } : ConnectState).unsent = st0.unsent ∧
    ({ st0 with cache := [] } : ConnectState).num_mail_sent =
      st0.num_mail_sent) :=
  ⟨rfl, rfl, rfl,
   C10_confirmed env0 st0 (some (.str "t@x")) none none none none none false
     false false okOut a10 msg10 [] rfl rfl rfl⟩

end Yagmail
